import Mathlib

/-!
Shallow embedding of the SLA Reconciliation Engine of
`productplan_api_tools` (files `sla/calculator.py`, `sla/manager.py`,
`sla/storage.py`), together with proofs settling the frozen claims about
its specification.

Modelling conventions:
* A moment in time is an `Int`, whole seconds since the Unix epoch;
  Python's `(a - b).days` on a `timedelta` floors, which is `Int.fdiv`
  by 86400.  Timezone normalisation in the source makes every compared
  pair naive, so timezones are dropped.
* A timestamp-valued field as it arrives from the API or the spreadsheet
  is `TsVal`: absent (Python `None` or the empty string), present but not
  parseable (a garbage string, or pandas `NaT` after a coerced read), or
  a parsed moment.
* Fallible parsing returns `Option`; the source never raises on the
  inputs modelled here.
-/

inductive TsVal where
  | missing : TsVal
  | unparseable : TsVal
  | ts : Int → TsVal
deriving DecidableEq, Repr

/-- `datetime.fromisoformat`-style parsing of a raw timestamp field:
absent and unparseable values both degrade to `none`
(calculator.py lines 216-248). -/
def parseTs : TsVal → Option Int
  | .missing => none
  | .unparseable => none
  | .ts t => some t

/-- Python `(a - b).days` on second-valued timestamps: `timedelta.days`
floors toward negative infinity. -/
def daysBetween (a b : Int) : Int := (a - b).fdiv 86400

/-- `pd.Timestamp` comparison `created_at >= cutoff` after the coercion in
`apply_idea_filters`: an absent value becomes `NaT`, whose comparisons are
all false.  (A string pandas cannot parse makes the source raise there;
it is treated like `NaT` here and lies outside every claim's domain.) -/
def tsGE (v : TsVal) (c : Int) : Bool :=
  match v with
  | .ts t => decide (c ≤ t)
  | _ => false

/-- `created_at < cutoff` under the same `NaT` conventions as `tsGE`. -/
def tsLT (v : TsVal) (c : Int) : Bool :=
  match v with
  | .ts t => decide (t < c)
  | _ => false

/-- One entry of an idea's `custom_dropdown_fields` list: either not a
dict (skipped by the extractor) or a `{label, value}` pair, where
`value = none` models an explicit JSON null. -/
inductive BagEntry where
  | malformed : BagEntry
  | field : String → Option String → BagEntry
deriving DecidableEq, Repr

/-- The `custom_dropdown_fields` slot of an idea dict: the key may be
absent, hold a non-list value, or hold a list of entries. -/
inductive Bag where
  | absent : Bag
  | notList : Bag
  | entries : List BagEntry → Bag
deriving DecidableEq, Repr

/-- Python `str.lower` on one ASCII character (the labels involved are
ASCII). -/
def lowerChar (c : Char) : Char :=
  if c.toNat ≥ 65 ∧ c.toNat ≤ 90 then Char.ofNat (c.toNat + 32) else c

/-- Python `str.lower`, restricted to ASCII strings. -/
def lowerStr (s : String) : String := String.mk (s.data.map lowerChar)

/-- The scan inside `extract_idea_status` (calculator.py lines 43-52):
first field whose lowercased label is `"idea status"` wins; an explicit
null value yields the empty string. -/
def findStatus : List BagEntry → String
  | [] => ""
  | .malformed :: rest => findStatus rest
  | .field label value :: rest =>
      if lowerStr label = "idea status" then value.getD "" else findStatus rest

/-- `extract_idea_status` (calculator.py lines 13-52). -/
def extract_idea_status (bag : Bag) : String :=
  match bag with
  | .absent => ""
  | .notList => ""
  | .entries l => findStatus l

/-- A stored SLA-date cell as handed to the calculator: Python `None`,
a pandas missing value (`NaT`/`NaN`, for which `pd.isna` is true), or a
genuine timestamp. -/
inductive Cell where
  | absent : Cell
  | nanTime : Cell
  | value : Int → Cell
deriving DecidableEq, Repr

/-- Normalisation at calculator.py lines 251-258: `None` stays `None`
and a `pd.isna` value is replaced by `None`. -/
def cellVal : Cell → Option Int
  | .absent => none
  | .nanTime => none
  | .value t => some t

/-- The `existing_sla_data` dict passed to `calculate_sla_columns`. -/
structure ExistingSla where
  response_sla : Cell
  roadmap_sla : Cell
deriving DecidableEq, Repr

/-- One idea record / one row of the tracking table.  Only the fields the
SLA engine reads or writes are modelled; `name`, `description`,
`customer` and `source_name` stand for the descriptive payload. -/
structure Row where
  id : Int
  name : String
  description : String
  customer : String
  source_name : String
  custom_dropdown_fields : Bag
  created_at : TsVal
  updated_at : TsVal
  response_sla : Cell
  roadmap_sla : Cell
  currently_meets_response_sla : Bool
  currently_meets_roadmap_sla : Bool
deriving DecidableEq, Repr

/-- The six columns returned by `calculate_sla_columns`. -/
structure SlaResult where
  response_sla : Option Int
  roadmap_sla : Option Int
  currently_meets_response_sla : Bool
  currently_meets_roadmap_sla : Bool
  response_sla_in_good_standing : Bool
  roadmap_sla_in_good_standing : Bool
deriving DecidableEq, Repr

/-- `calculate_response_sla_in_good_standing` (calculator.py lines
55-105); `now` makes the source's `datetime.utcnow()` explicit. -/
def calculate_response_sla_in_good_standing (idea_status : String)
    (created_at : Option Int) (currently_meets_response_sla : Bool)
    (now : Int) : Bool :=
  if currently_meets_response_sla then true
  else
    match created_at with
    | none => false
    | some c =>
        if daysBetween now c ≤ 14 ∧ (idea_status = "" ∨ idea_status = "On deck")
        then true else false

/-- `calculate_roadmap_sla_in_good_standing` (calculator.py lines
108-158). -/
def calculate_roadmap_sla_in_good_standing (idea_status : String)
    (created_at : Option Int) (currently_meets_roadmap_sla : Bool)
    (now : Int) : Bool :=
  if currently_meets_roadmap_sla then true
  else
    match created_at with
    | none => false
    | some c =>
        if daysBetween now c ≤ 60 ∧
            ¬(idea_status = "Accepted" ∨ idea_status = "Rejected")
        then true else false

/-- Prior response deadline extracted from `existing_sla_data`
(calculator.py lines 251-255). -/
def prior_response (existing : Option ExistingSla) : Option Int :=
  match existing with
  | none => none
  | some e => cellVal e.response_sla

/-- Prior roadmap deadline extracted from `existing_sla_data`
(calculator.py lines 252-258). -/
def prior_roadmap (existing : Option ExistingSla) : Option Int :=
  match existing with
  | none => none
  | some e => cellVal e.roadmap_sla

/-- `calculate_sla_columns` (calculator.py lines 161-329); `now` makes
the source's `datetime.utcnow()` explicit. -/
def calculate_sla_columns (idea : Row) (existing_sla_data : Option ExistingSla)
    (now : Int) : SlaResult :=
  let idea_status := extract_idea_status idea.custom_dropdown_fields
  let created_at := parseTs idea.created_at
  let updated_at := parseTs idea.updated_at
  let response_sla0 := prior_response existing_sla_data
  let roadmap_sla0 := prior_roadmap existing_sla_data
  let sla_date := updated_at.getD now
  let response_sla :=
    if response_sla0 = none ∧ idea_status ≠ "" ∧ idea_status ≠ "On deck"
    then some sla_date else response_sla0
  let roadmap_sla :=
    if roadmap_sla0 = none ∧ (idea_status = "Accepted" ∨ idea_status = "Rejected")
    then some sla_date else roadmap_sla0
  let currently_meets_response_sla :=
    match response_sla, created_at with
    | some d, some c =>
        if idea_status ≠ "" ∧ idea_status ≠ "On deck"
        then decide (daysBetween d c ≤ 14) else false
    | _, _ => false
  let currently_meets_roadmap_sla :=
    match roadmap_sla, created_at with
    | some d, some c =>
        if idea_status = "Accepted" ∨ idea_status = "Rejected"
        then decide (daysBetween d c ≤ 60) else false
    | _, _ => false
  { response_sla := response_sla
    roadmap_sla := roadmap_sla
    currently_meets_response_sla := currently_meets_response_sla
    currently_meets_roadmap_sla := currently_meets_roadmap_sla
    response_sla_in_good_standing :=
      calculate_response_sla_in_good_standing idea_status created_at
        currently_meets_response_sla now
    roadmap_sla_in_good_standing :=
      calculate_roadmap_sla_in_good_standing idea_status created_at
        currently_meets_roadmap_sla now }

/-- `compare_timestamps` (calculator.py lines 332-393): true iff the API
value is strictly newer; absent API value, any unparseable side (a parse
failure, or a stored `NaT` whose comparisons are false) and ties all
yield false; a present API value beats an absent stored one. -/
def compare_timestamps : TsVal → TsVal → Bool
  | .missing, _ => false
  | _, .missing => true
  | .unparseable, _ => false
  | _, .unparseable => false
  | .ts a, .ts b => decide (b < a)

/-- `pd.Timestamp('2025-09-15', tz='UTC')` in epoch seconds
(manager.py line 97). -/
def cutoff_2025_09_15 : Int := 1757894400

/-- `pd.Timestamp('2025-11-03', tz='UTC')` in epoch seconds
(manager.py line 102). -/
def cutoff_2025_11_03 : Int := 1762128000

/-- Keep-condition of filter 1 (manager.py line 98): created on or after
the cutoff date. -/
def date_keep (r : Row) : Bool := tsGE r.created_at cutoff_2025_09_15

/-- The removal mask of filter 2 (manager.py line 103). -/
def jason_excl (r : Row) : Bool :=
  decide (r.source_name = "Jason Ladicos") && tsLT r.created_at cutoff_2025_11_03

/-- Keep-condition of filter 2 (manager.py line 105). -/
def jason_keep (r : Row) : Bool := ! jason_excl r

/-- Keep-condition of filter 3 (manager.py lines 108-110): customer is
not exactly `"TEST"`. -/
def test_keep (r : Row) : Bool := ! decide (r.customer = "TEST")

/-- The statistics dict built by `apply_idea_filters`. -/
structure FilterStats where
  initial_count : Nat
  date_filtered : Nat
  jason_filtered : Nat
  test_filtered : Nat
  total_filtered : Nat
  remaining : Nat
deriving DecidableEq, Repr

/-- `apply_idea_filters` (manager.py lines 52-123): the three exclusion
rules applied in order, with sequential removal counts, and an immediate
all-zero return on an empty batch. -/
def apply_idea_filters (df : List Row) : List Row × FilterStats :=
  let initial_count := df.length
  if initial_count = 0 then
    (df, { initial_count := 0, date_filtered := 0, jason_filtered := 0,
           test_filtered := 0, total_filtered := 0, remaining := 0 })
  else
    let df1 := df.filter date_keep
    let df2 := df1.filter jason_keep
    let df3 := df2.filter test_keep
    (df3,
     { initial_count := initial_count
       date_filtered := initial_count - df1.length
       jason_filtered := (df1.filter jason_excl).length
       test_filtered := (df2.filter (fun r => decide (r.customer = "TEST"))).length
       total_filtered := initial_count - df3.length
       remaining := df3.length })

/-- A pipeline of keep-predicates applied sequentially, recording how
many rows each rule removed — the generic shape of `apply_idea_filters`
used to compare rule orders. -/
def runRules (rules : List (Row → Bool)) (df : List Row) : List Row × List Nat :=
  rules.foldl
    (fun acc p =>
      let l' := acc.1.filter p
      (l', acc.2 ++ [acc.1.length - l'.length]))
    (df, [])

/-- The `existing_lookup` dict of `sla_update` (manager.py lines
408-410): built by iterating the rows, so on a duplicated id the last
row wins. -/
def existing_lookup : List Row → Int → Option Row
  | [], _ => none
  | r :: rest, i =>
      match existing_lookup rest i with
      | some r' => some r'
      | none => if r.id = i then some r else none

/-- The in-place row overwrite of `sla_update` (manager.py lines
464-468): the row at the first index whose id matches is replaced. -/
def updateFirst (df : List Row) (i : Int) (newRow : Row) : List Row :=
  match df with
  | [] => []
  | r :: rest => if r.id = i then newRow :: rest else r :: updateFirst rest i newRow

/-- Writing the four calculated SLA columns into an idea dict
(manager.py lines 449-452 and 482-485). -/
def applySla (rec : Row) (sla : SlaResult) : Row :=
  { rec with
    response_sla := match sla.response_sla with
      | none => .absent
      | some t => .value t
    roadmap_sla := match sla.roadmap_sla with
      | none => .absent
      | some t => .value t
    currently_meets_response_sla := sla.currently_meets_response_sla
    currently_meets_roadmap_sla := sla.currently_meets_roadmap_sla }

/-- How `sla_update` classifies one fetched, filter-surviving record. -/
inductive RowAction where
  | update : RowAction
  | skip : RowAction
  | insert : RowAction
deriving DecidableEq, Repr

/-- The body of the per-record loop of `sla_update` (manager.py lines
423-496) acting on the in-memory table: update in place when the fetched
timestamp is strictly newer, skip otherwise, append when the identity is
new. -/
def processOne (df : List Row) (rec : Row) (now : Int) : List Row × RowAction :=
  match existing_lookup df rec.id with
  | some existing_idea =>
      if compare_timestamps rec.updated_at existing_idea.updated_at then
        let sla := calculate_sla_columns rec
          (some { response_sla := existing_idea.response_sla,
                  roadmap_sla := existing_idea.roadmap_sla }) now
        (updateFirst df rec.id (applySla rec sla), .update)
      else (df, .skip)
  | none =>
      let sla := calculate_sla_columns rec none now
      (df ++ [applySla rec sla], .insert)

/-- The whole per-record loop of `sla_update`, folded over the
filter-surviving records. -/
def processAll (df : List Row) (recs : List Row) (now : Int) : List Row :=
  recs.foldl (fun acc rec => (processOne acc rec now).1) df

/-- The id set of a list of records (`{idea['id'] for idea in ...}` /
`set(...['id'].tolist())`). -/
def idsOf (df : List Row) : Finset Int :=
  df.foldr (fun r s => insert r.id s) ∅

/-- The in-memory reconciliation of `sla_update` (manager.py lines
367-508): filter the fetched batch, upsert each survivor against the
existing table, then drop the opportunistic-cleanup set
`existing_idea_ids & fetched_idea_ids - filtered_idea_ids` (the removal
loop at lines 502-508 filters the table one removed id at a time, which
amounts to keeping the rows whose id is outside that set). -/
def sla_update_core (existing_df : List Row) (fetched : List Row) (now : Int) :
    List Row :=
  let filtered := (apply_idea_filters fetched).1
  let fetched_idea_ids := idsOf fetched
  let filtered_idea_ids := idsOf filtered
  let existing_idea_ids := idsOf existing_df
  let merged := processAll existing_df filtered now
  let ideas_to_remove := (existing_idea_ids ∩ fetched_idea_ids) \ filtered_idea_ids
  merged.filter (fun r => decide (r.id ∉ ideas_to_remove))

/-- The table built by `sla_init` (manager.py lines 176-204): SLA columns
are calculated per idea with no existing data, then the filter rules are
applied. -/
def sla_init_core (ideas : List Row) (now : Int) : List Row :=
  (apply_idea_filters
    (ideas.map (fun idea => applySla idea (calculate_sla_columns idea none now)))).1

/-- One row of the Runs audit log (`record_run`'s columns). -/
structure RunRecord where
  type : String
  timestamp : Int
  records_added : Nat
  records_updated : Nat
deriving DecidableEq, Repr

/-- An Excel workbook as the SLA storage sees it: the main region
(sheet `SLA Tracking`) and the audit region (sheet `Runs`), each possibly
absent. -/
structure ExcelFile where
  tracking : Option (List Row)
  runs : Option (List RunRecord)
deriving DecidableEq, Repr

namespace ExcelSLAStorage

/-- `ExcelSLAStorage.write` (storage.py lines 106-173): when the file is
a readable workbook the writer opens it in append mode with
`if_sheet_exists='replace'`, so only the `SLA Tracking` sheet is
replaced; when the file is absent (or unreadable, modelled as absent) a
fresh workbook holding only the main sheet is produced. -/
def write (file : Option ExcelFile) (df : List Row) : ExcelFile :=
  match file with
  | some f => { f with tracking := some df }
  | none => { tracking := some df, runs := none }

/-- `ExcelSLAStorage.record_run` (storage.py lines 184-236): the existing
Runs rows are read (an absent sheet counts as zero rows), the new row is
concatenated, and the combined rows are written back; on an absent file a
workbook holding only the new run row is created. -/
def record_run (file : Option ExcelFile) (rec : RunRecord) : ExcelFile :=
  match file with
  | some f => { f with runs := some ((f.runs.getD []) ++ [rec]) }
  | none => { tracking := none, runs := some [rec] }

end ExcelSLAStorage

/-- The storage effect of one `sla_init` pass (manager.py lines 126-310):
build the initial table and call `storage.write` — and nothing else; the
flow never calls `record_run`. -/
def sla_init_run (file : Option ExcelFile) (ideas : List Row) (now : Int) :
    ExcelFile :=
  ExcelSLAStorage.write file (sla_init_core ideas now)

/-- The storage effect of one `sla_update` pass on an existing store
(manager.py lines 313-584): read the table, reconcile it against the
fetched batch, and call `storage.write` — and nothing else; the flow
never calls `record_run`. -/
def sla_update_run (f : ExcelFile) (fetched : List Row) (now : Int) : ExcelFile :=
  ExcelSLAStorage.write (some f)
    (sla_update_core (f.tracking.getD []) fetched now)

/-! Concrete records used to instantiate the theorems below. -/

/-- A neutral record: no status bag, no timestamps, no stored deadlines. -/
def baseRow : Row :=
  { id := 1, name := "n", description := "d", customer := "c", source_name := "s",
    custom_dropdown_fields := .absent, created_at := .missing, updated_at := .missing,
    response_sla := .absent, roadmap_sla := .absent,
    currently_meets_response_sla := false, currently_meets_roadmap_sla := false }

/-- A dropdown bag whose idea status is `"Accepted"`. -/
def acceptedBag : Bag := .entries [.field "Idea Status" (some "Accepted")]

/-- An accepted idea carrying pandas missing values as its stored prior
deadlines. -/
def c9row : Row :=
  { baseRow with custom_dropdown_fields := acceptedBag, updated_at := .ts 100 }

/-- An accepted idea whose `created_at` fails to parse. -/
def c6row : Row :=
  { baseRow with
    custom_dropdown_fields := acceptedBag
    created_at := .unparseable
    updated_at := .ts 50 }

/-- Responded exactly 14 days after creation. -/
def c3rowR : Row :=
  { baseRow with
    custom_dropdown_fields := .entries [.field "idea status" (some "In Review")]
    created_at := .ts 0
    updated_at := .ts 1209600 }

/-- Accepted exactly 60 days after creation. -/
def c3rowRM : Row :=
  { baseRow with
    custom_dropdown_fields := acceptedBag
    created_at := .ts 0
    updated_at := .ts 5184000 }

/-- Whether a bag entry is a dict whose lowercased label is the fixed
field name — the match condition of the extractor's scan. -/
def matchesStatusField : BagEntry → Bool
  | .malformed => false
  | .field lab _ => lowerStr lab = "idea status"

/-- A stored row with identity 7. -/
def storedRow : Row := { baseRow with id := 7, updated_at := .ts 100 }

/-- A fetched record with the same identity and a tied timestamp but a
changed name. -/
def fetchedStale : Row :=
  { baseRow with id := 7, name := "changed", updated_at := .ts 100 }

/-- A workbook holding an empty tracking table and an empty Runs log. -/
def emptyStore : ExcelFile := { tracking := some [], runs := some [] }

/-- A record removed by the date floor and also matching the
source-plus-date exclusion. -/
def exFilterRow : Row :=
  { baseRow with created_at := .ts 0, source_name := "Jason Ladicos" }

/-- A fetched record that fails the filters and shares no identity with
the stored table. -/
def unfetchedBad : Row := { baseRow with id := 9, created_at := .ts 0 }

/-! Helper lemmas. -/

lemma filter_swap {α : Type} (p q : α → Bool) (l : List α) :
    (l.filter p).filter q = (l.filter q).filter p := by
  induction l with
  | nil => rfl
  | cons a t ih =>
      by_cases hp : p a <;> by_cases hq : q a <;>
        simp [List.filter_cons, hp, hq, ih]

lemma foldl_filter_perm {α : Type} {ps qs : List (α → Bool)} (h : ps.Perm qs)
    (l : List α) :
    ps.foldl (fun acc p => acc.filter p) l
      = qs.foldl (fun acc p => acc.filter p) l := by
  induction h generalizing l with
  | nil => rfl
  | cons p _ ih => simpa using ih (l.filter p)
  | swap p q rest => simp [filter_swap q p l]
  | trans _ _ ih1 ih2 => exact (ih1 l).trans (ih2 l)

lemma apply_idea_filters_eq_seq (df : List Row) :
    (apply_idea_filters df).1
      = [date_keep, jason_keep, test_keep].foldl (fun acc p => acc.filter p) df := by
  cases df with
  | nil => rfl
  | cons a t => simp [apply_idea_filters]

lemma mem_idsOf {df : List Row} {i : Int} : i ∈ idsOf df ↔ ∃ r ∈ df, r.id = i := by
  induction df with
  | nil => simp [idsOf]
  | cons a t ih =>
      simp only [idsOf, List.foldr_cons] at ih ⊢
      simp [Finset.mem_insert, ih, List.mem_cons, or_and_right, exists_or, eq_comm]

lemma applySla_id (rec : Row) (sla : SlaResult) : (applySla rec sla).id = rec.id := rfl

lemma mem_updateFirst_of_ne {df : List Row} {r new : Row} {i : Int}
    (hr : r ∈ df) (hne : r.id ≠ i) : r ∈ updateFirst df i new := by
  induction df with
  | nil => cases hr
  | cons a t ih =>
      rw [List.mem_cons] at hr
      by_cases ha : a.id = i
      · rcases hr with rfl | hr
        · exact absurd ha hne
        · simp [updateFirst, ha, hr]
      · rcases hr with rfl | hr
        · simp [updateFirst, ha]
        · simp [updateFirst, ha, ih hr]

lemma hasId_updateFirst {df : List Row} {new : Row} {i j : Int} (hnew : new.id = j)
    (h : ∃ r ∈ df, r.id = i) : ∃ r ∈ updateFirst df j new, r.id = i := by
  induction df with
  | nil => simp at h
  | cons a t ih =>
      obtain ⟨r, hr, hid⟩ := h
      rw [List.mem_cons] at hr
      by_cases ha : a.id = j
      · rcases hr with rfl | hr
        · exact ⟨new, by simp [updateFirst, ha], by rw [hnew, ← ha, hid]⟩
        · exact ⟨r, by simp [updateFirst, ha, hr], hid⟩
      · rcases hr with rfl | hr
        · exact ⟨r, by simp [updateFirst, ha], hid⟩
        · obtain ⟨r', hr', hid'⟩ := ih ⟨r, hr, hid⟩
          exact ⟨r', by simp [updateFirst, ha, hr'], hid'⟩

lemma processOne_hasId {df : List Row} {rec : Row} {now i : Int}
    (h : ∃ r ∈ df, r.id = i) : ∃ r ∈ (processOne df rec now).1, r.id = i := by
  unfold processOne
  cases hl : existing_lookup df rec.id with
  | none =>
      obtain ⟨r, hr, hid⟩ := h
      exact ⟨r, by simp [hr], hid⟩
  | some e =>
      by_cases hc : compare_timestamps rec.updated_at e.updated_at
      · simp only [hc, if_true]
        exact hasId_updateFirst (applySla_id rec _) h
      · simp only [hc, if_false]
        exact h

lemma processOne_mem_of_ne {df : List Row} {rec r : Row} {now : Int}
    (hr : r ∈ df) (hne : r.id ≠ rec.id) : r ∈ (processOne df rec now).1 := by
  unfold processOne
  cases hl : existing_lookup df rec.id with
  | none => simp [hr]
  | some e =>
      by_cases hc : compare_timestamps rec.updated_at e.updated_at
      · simp only [hc, if_true]
        exact mem_updateFirst_of_ne hr hne
      · simpa only [hc, if_false] using hr

lemma processAll_hasId {recs : List Row} {df : List Row} {now i : Int}
    (h : ∃ r ∈ df, r.id = i) : ∃ r ∈ processAll df recs now, r.id = i := by
  induction recs generalizing df with
  | nil => exact h
  | cons rec rest ih => exact ih (processOne_hasId h)

lemma processAll_mem_of_ne {recs : List Row} {df : List Row} {r : Row} {now : Int}
    (hr : r ∈ df) (h : ∀ rec ∈ recs, r.id ≠ rec.id) :
    r ∈ processAll df recs now := by
  induction recs generalizing df with
  | nil => exact hr
  | cons rec rest ih =>
      exact ih (processOne_mem_of_ne hr (h rec (by simp)))
        (fun x hx => h x (by simp [hx]))

lemma mem_of_mem_filtered {fetched : List Row} {x : Row}
    (h : x ∈ (apply_idea_filters fetched).1) : x ∈ fetched := by
  rw [apply_idea_filters_eq_seq] at h
  simp only [List.foldl_cons, List.foldl_nil] at h
  exact List.mem_of_mem_filter (List.mem_of_mem_filter (List.mem_of_mem_filter h))

/-! Claims. -/

/-- Claim C1, as stated, is false: a reconciliation pass appends no
RunRecord row at all.  On a store whose audit log is empty, neither an
incremental pass nor a full-resync pass leaves the log one row longer. -/
theorem C1_counterexample :
    ¬ (((sla_update_run emptyStore [] 0).runs.getD []).length
        = ((emptyStore.runs.getD []).length + 1)) ∧
    ¬ (((sla_init_run (some emptyStore) [] 0).runs.getD []).length
        = ((emptyStore.runs.getD []).length + 1)) := by decide

/-- Claim C1, amended: the reconciliation flows never touch the audit
log.  Both `sla_init` and `sla_update` call only `storage.write`, which
leaves the Runs region exactly as it was (and creates none on a fresh
file); `record_run` — the only operation that appends a RunRecord, and
appends exactly one row per call — is implemented by the storage backend
but never invoked by either flow. -/
theorem C1_passes_never_touch_audit_log (f : ExcelFile) (ideas fetched : List Row)
    (now : Int) (rec : RunRecord) :
    (sla_init_run (some f) ideas now).runs = f.runs ∧
    (sla_init_run none ideas now).runs = none ∧
    (sla_update_run f fetched now).runs = f.runs ∧
    (ExcelSLAStorage.record_run (some f) rec).runs
      = some (f.runs.getD [] ++ [rec]) :=
  ⟨rfl, rfl, rfl, rfl⟩

/-- Claim C2: for every idea record and every `existing_sla_data` whose
`response_sla` (resp. `roadmap_sla`) is a genuine non-null timestamp,
`calculate_sla_columns` returns exactly that stored value — a deadline
date, once non-null, is never overwritten by recomputation. -/
theorem C2_deadline_write_once (idea : Row) (e : ExistingSla) (now t : Int) :
    (e.response_sla = Cell.value t →
      (calculate_sla_columns idea (some e) now).response_sla = some t) ∧
    (e.roadmap_sla = Cell.value t →
      (calculate_sla_columns idea (some e) now).roadmap_sla = some t) := by
  constructor <;> intro h <;>
    simp [calculate_sla_columns, prior_response, prior_roadmap, h, cellVal]

/-- Witness for C2 at a concrete record with stored deadlines 5 and 7. -/
theorem C2_witness :
    (calculate_sla_columns baseRow
        (some { response_sla := .value 5, roadmap_sla := .value 7 }) 0).response_sla
      = some 5 ∧
    (calculate_sla_columns baseRow
        (some { response_sla := .value 5, roadmap_sla := .value 7 }) 0).roadmap_sla
      = some 7 :=
  ⟨(C2_deadline_write_once baseRow _ 0 5).1 rfl,
   (C2_deadline_write_once baseRow _ 0 7).2 rfl⟩

/-- Claim C3: the SLA window boundary is inclusive.  For every idea with
a parseable `created_at`, a set deadline date in the result and a status
satisfying the category's validity condition, a deadline exactly
`window_days` days after creation (14 response, 60 roadmap) yields
`met = true`, and `window_days + 1` days yields `met = false`. -/
theorem C3_window_boundary_inclusive (idea : Row) (existing : Option ExistingSla)
    (now c d : Int) (hc : parseTs idea.created_at = some c) :
    ((calculate_sla_columns idea existing now).response_sla = some d →
      extract_idea_status idea.custom_dropdown_fields ≠ "" →
      extract_idea_status idea.custom_dropdown_fields ≠ "On deck" →
      (daysBetween d c = 14 →
        (calculate_sla_columns idea existing now).currently_meets_response_sla
          = true) ∧
      (daysBetween d c = 15 →
        (calculate_sla_columns idea existing now).currently_meets_response_sla
          = false)) ∧
    ((calculate_sla_columns idea existing now).roadmap_sla = some d →
      (extract_idea_status idea.custom_dropdown_fields = "Accepted" ∨
        extract_idea_status idea.custom_dropdown_fields = "Rejected") →
      (daysBetween d c = 60 →
        (calculate_sla_columns idea existing now).currently_meets_roadmap_sla
          = true) ∧
      (daysBetween d c = 61 →
        (calculate_sla_columns idea existing now).currently_meets_roadmap_sla
          = false)) := by
  constructor
  · intro hd h1 h2
    simp only [calculate_sla_columns] at hd ⊢
    rw [hd, hc]
    constructor <;> intro hdays <;> simp [h1, h2, hdays]
  · intro hd h1
    simp only [calculate_sla_columns] at hd ⊢
    rw [hd, hc]
    constructor <;> intro hdays <;> simp [h1, hdays]

/-- Witness for C3: responding exactly on day 14 meets the response SLA
and deciding exactly on day 60 meets the roadmap SLA. -/
theorem C3_witness :
    (calculate_sla_columns c3rowR none 0).currently_meets_response_sla = true ∧
    (calculate_sla_columns c3rowRM none 0).currently_meets_roadmap_sla = true :=
  ⟨((C3_window_boundary_inclusive c3rowR none 0 0 1209600 rfl).1 (by decide)
      (by decide) (by decide)).1 (by decide),
   ((C3_window_boundary_inclusive c3rowRM none 0 0 5184000 rfl).2 (by decide)
      (by decide)).1 (by decide)⟩

/-- Claim C4: in the incremental flow's per-record step, a fetched record
whose identity exists in the stored table and whose fetched `updated_at`
is not strictly newer is classified `skip` and the table is returned
entirely unchanged; `compare_timestamps` indeed reports "not newer" on
exact ties and on unparseable timestamps on either side. -/
theorem C4_stale_fetch_skips :
    (∀ (df : List Row) (rec row : Row) (now : Int),
        existing_lookup df rec.id = some row →
        compare_timestamps rec.updated_at row.updated_at = false →
        processOne df rec now = (df, RowAction.skip)) ∧
    (∀ a b : Int, a ≤ b →
        compare_timestamps (TsVal.ts a) (TsVal.ts b) = false) ∧
    (∀ a : Int, compare_timestamps TsVal.unparseable (TsVal.ts a) = false) ∧
    (∀ a : Int, compare_timestamps (TsVal.ts a) TsVal.unparseable = false) ∧
    (compare_timestamps TsVal.unparseable TsVal.unparseable = false) := by
  refine ⟨?_, ?_, ?_, ?_, rfl⟩
  · intro df rec row now h1 h2
    simp [processOne, h1, h2]
  · intro a b h
    simp [compare_timestamps]
    omega
  · intro a; rfl
  · intro a; rfl

/-- Witness for C4: a fetched record tying the stored timestamp (with a
changed name) is skipped and the stored row survives byte-for-byte. -/
theorem C4_witness :
    processOne [storedRow] fetchedStale 0 = ([storedRow], RowAction.skip) ∧
    compare_timestamps (TsVal.ts 100) (TsVal.ts 100) = false :=
  ⟨C4_stale_fetch_skips.1 [storedRow] fetchedStale storedRow 0 (by decide)
      (C4_stale_fetch_skips.2.1 100 100 (by decide)),
   C4_stale_fetch_skips.2.1 100 100 (by decide)⟩

/-- Claim C5: the identities removed by an incremental pass are exactly
(identities present in the existing table) ∩ (identities fetched this
pass) − (identities surviving the filter pipeline this pass); and a
stored row whose identity was not fetched this pass survives unchanged,
regardless of whether it would pass the filters. -/
theorem C5_delete_set_is_observed_failures (existing_df fetched : List Row)
    (now : Int) :
    idsOf existing_df \ idsOf (sla_update_core existing_df fetched now)
      = (idsOf existing_df ∩ idsOf fetched) \ idsOf (apply_idea_filters fetched).1 ∧
    ∀ r ∈ existing_df, r.id ∉ idsOf fetched →
      r ∈ sla_update_core existing_df fetched now := by
  set S := (idsOf existing_df ∩ idsOf fetched) \ idsOf (apply_idea_filters fetched).1
    with hS
  have hcore : sla_update_core existing_df fetched now
      = (processAll existing_df (apply_idea_filters fetched).1 now).filter
          (fun r => decide (r.id ∉ S)) := rfl
  constructor
  · ext i
    simp only [Finset.mem_sdiff]
    constructor
    · rintro ⟨hiE, hiOut⟩
      by_contra hiS
      apply hiOut
      obtain ⟨r, hr, hid⟩ :=
        @processAll_hasId (apply_idea_filters fetched).1 existing_df now i
          (mem_idsOf.mp hiE)
      refine mem_idsOf.mpr ⟨r, ?_, hid⟩
      rw [hcore]
      exact List.mem_filter.mpr ⟨hr, by simp [hid, hiS]⟩
    · intro hiS
      have hiE : i ∈ idsOf existing_df :=
        (Finset.mem_inter.mp (Finset.mem_sdiff.mp hiS).1).1
      refine ⟨hiE, ?_⟩
      intro hiOut
      obtain ⟨r, hr, hid⟩ := mem_idsOf.mp hiOut
      rw [hcore] at hr
      have hkeep := (List.mem_filter.mp hr).2
      rw [hid] at hkeep
      simp only [decide_eq_true_eq] at hkeep
      exact hkeep hiS
  · intro r hr hrF
    have h1 : ∀ rec ∈ (apply_idea_filters fetched).1, r.id ≠ rec.id := by
      intro rec hrec heq
      exact hrF (mem_idsOf.mpr ⟨rec, mem_of_mem_filtered hrec, heq.symm⟩)
    have h2 : r ∈ processAll existing_df (apply_idea_filters fetched).1 now :=
      processAll_mem_of_ne hr h1
    have h3 : r.id ∉ S := by
      intro hmem
      exact hrF (Finset.mem_inter.mp (Finset.mem_sdiff.mp hmem).1).2
    rw [hcore]
    exact List.mem_filter.mpr ⟨h2, by simp [h3]⟩

/-- Witness for C5: a stored row whose identity was not fetched survives
a pass whose only fetched record fails the filters. -/
theorem C5_witness :
    storedRow ∈ sla_update_core [storedRow] [unfetchedBad] 0 :=
  (C5_delete_set_is_observed_failures [storedRow] [unfetchedBad] 0).2 storedRow
    (by simp) (by decide)

/-- Claim C6: a missing or unparseable `created_at` never raises and
forces `met = false` and `in_good_standing = false` for both categories,
while deadline stamping still proceeds: with no prior deadline and a
status satisfying the entry condition, the deadline is set from
`updated_at`, falling back to the current time. -/
theorem C6_missing_created_at_degrades (idea : Row) (existing : Option ExistingSla)
    (now : Int) (h : parseTs idea.created_at = none) :
    (calculate_sla_columns idea existing now).currently_meets_response_sla = false ∧
    (calculate_sla_columns idea existing now).currently_meets_roadmap_sla = false ∧
    (calculate_sla_columns idea existing now).response_sla_in_good_standing = false ∧
    (calculate_sla_columns idea existing now).roadmap_sla_in_good_standing = false ∧
    (prior_response existing = none →
      extract_idea_status idea.custom_dropdown_fields ≠ "" →
      extract_idea_status idea.custom_dropdown_fields ≠ "On deck" →
      (calculate_sla_columns idea existing now).response_sla
        = some ((parseTs idea.updated_at).getD now)) ∧
    (prior_roadmap existing = none →
      (extract_idea_status idea.custom_dropdown_fields = "Accepted" ∨
        extract_idea_status idea.custom_dropdown_fields = "Rejected") →
      (calculate_sla_columns idea existing now).roadmap_sla
        = some ((parseTs idea.updated_at).getD now)) := by
  refine ⟨?_, ?_, ?_, ?_, ?_, ?_⟩
  · simp [calculate_sla_columns, h]
  · simp [calculate_sla_columns, h]
  · simp [calculate_sla_columns, h, calculate_response_sla_in_good_standing]
  · simp [calculate_sla_columns, h, calculate_roadmap_sla_in_good_standing]
  · intro h0 h1 h2
    simp [calculate_sla_columns, h0, h1, h2]
  · intro h0 h1
    simp [calculate_sla_columns, h0, h1]

/-- Witness for C6: an accepted idea with an unparseable `created_at`
gets both deadlines stamped from `updated_at` yet meets nothing and is
not in good standing. -/
theorem C6_witness :
    (calculate_sla_columns c6row none 0).currently_meets_response_sla = false ∧
    (calculate_sla_columns c6row none 0).response_sla_in_good_standing = false ∧
    (calculate_sla_columns c6row none 0).response_sla = some 50 ∧
    (calculate_sla_columns c6row none 0).roadmap_sla = some 50 :=
  ⟨(C6_missing_created_at_degrades c6row none 0 rfl).1,
   (C6_missing_created_at_degrades c6row none 0 rfl).2.2.1,
   ((C6_missing_created_at_degrades c6row none 0 rfl).2.2.2.2.1 rfl (by decide)
     (by decide)).trans (by decide),
   ((C6_missing_created_at_degrades c6row none 0 rfl).2.2.2.2.2 rfl
     (by decide)).trans (by decide)⟩

/-- Claim C7: rewriting the main table through the storage backend's
`write` preserves the Runs audit region and its contents (a fresh file
simply has none), and `record_run` appends exactly one row to it. -/
theorem C7_write_preserves_runs (f : ExcelFile) (df : List Row) (rec : RunRecord) :
    (ExcelSLAStorage.write (some f) df).runs = f.runs ∧
    (ExcelSLAStorage.write none df).runs = none ∧
    (ExcelSLAStorage.record_run (some f) rec).runs
      = some (f.runs.getD [] ++ [rec]) ∧
    (ExcelSLAStorage.record_run none rec).runs = some [rec] :=
  ⟨rfl, rfl, rfl, rfl⟩

/-- Claim C8: the set of records retained by the filter pipeline is the
same for every permutation of the three rules; the per-rule removal
counts do depend on the order (the date rule removes 1 record when
applied first but 0 when applied after the source-plus-date rule, on a
record failing both); and an empty batch returns immediately with
all-zero statistics. -/
theorem C8_filter_order_invariance :
    (∀ (df : List Row) (ps : List (Row → Bool)),
        ps.Perm [date_keep, jason_keep, test_keep] →
        ps.foldl (fun acc p => acc.filter p) df = (apply_idea_filters df).1) ∧
    ((runRules [date_keep, jason_keep, test_keep] [exFilterRow]).2.get? 0
        = some 1 ∧
      (runRules [jason_keep, date_keep, test_keep] [exFilterRow]).2.get? 1
        = some 0) ∧
    apply_idea_filters []
      = ([], { initial_count := 0, date_filtered := 0, jason_filtered := 0,
               test_filtered := 0, total_filtered := 0, remaining := 0 }) := by
  refine ⟨?_, ⟨by decide, by decide⟩, rfl⟩
  intro df ps h
  rw [apply_idea_filters_eq_seq, foldl_filter_perm h]

/-- Witness for C8: swapping the first two rules leaves the retained set
of a concrete batch unchanged. -/
theorem C8_witness :
    [jason_keep, date_keep, test_keep].foldl (fun acc p => acc.filter p)
        [exFilterRow]
      = (apply_idea_filters [exFilterRow]).1 :=
  C8_filter_order_invariance.1 [exFilterRow] _
    (List.Perm.swap date_keep jason_keep [test_keep])

/-- Claim C9: the write-once guarantee applies only to genuinely non-null
prior deadlines — a pandas missing value (`NaT`/`NaN`) supplied as the
prior deadline is treated as absent, and a fresh deadline is stamped when
the current status satisfies the category's entry condition. -/
theorem C9_nat_prior_treated_as_absent (idea : Row) (e : ExistingSla) (now : Int) :
    (e.response_sla = Cell.nanTime →
      extract_idea_status idea.custom_dropdown_fields ≠ "" →
      extract_idea_status idea.custom_dropdown_fields ≠ "On deck" →
      (calculate_sla_columns idea (some e) now).response_sla
        = some ((parseTs idea.updated_at).getD now)) ∧
    (e.roadmap_sla = Cell.nanTime →
      (extract_idea_status idea.custom_dropdown_fields = "Accepted" ∨
        extract_idea_status idea.custom_dropdown_fields = "Rejected") →
      (calculate_sla_columns idea (some e) now).roadmap_sla
        = some ((parseTs idea.updated_at).getD now)) := by
  constructor
  · intro h h1 h2
    simp [calculate_sla_columns, prior_response, h, cellVal, h1, h2]
  · intro h h1
    simp [calculate_sla_columns, prior_roadmap, h, cellVal, h1]

/-- Witness for C9: an accepted idea whose stored prior deadlines are
both `NaT` gets both deadlines freshly stamped from `updated_at`. -/
theorem C9_witness :
    (calculate_sla_columns c9row
      (some { response_sla := .nanTime, roadmap_sla := .nanTime }) 0).response_sla
      = some 100 ∧
    (calculate_sla_columns c9row
      (some { response_sla := .nanTime, roadmap_sla := .nanTime }) 0).roadmap_sla
      = some 100 :=
  ⟨(C9_nat_prior_treated_as_absent _ _ 0).1 rfl (by decide) (by decide),
   (C9_nat_prior_treated_as_absent _ _ 0).2 rfl (by decide)⟩

/-- Claim C10: in the status extractor, the first field whose label
case-insensitively equals the fixed field name decides the result even
when its value is null — when no earlier entry matches and the first
match carries a null value, the result is the empty string, never a later
matching field's non-null value. -/
theorem C10_first_null_match_wins (l1 l2 : List BagEntry) (lab : String)
    (hlab : lowerStr lab = "idea status")
    (hfirst : ∀ e ∈ l1, matchesStatusField e = false) :
    extract_idea_status (Bag.entries (l1 ++ BagEntry.field lab none :: l2)) = "" := by
  induction l1 with
  | nil => simp [extract_idea_status, findStatus, hlab]
  | cons e rest ih =>
      have he : matchesStatusField e = false := hfirst e (by simp)
      have hrest : ∀ x ∈ rest, matchesStatusField x = false := by
        intro x hx
        exact hfirst x (by simp [hx])
      cases e with
      | malformed =>
          simpa [extract_idea_status, findStatus] using ih hrest
      | field lab' v =>
          have hne : ¬ (lowerStr lab' = "idea status") := by
            simpa [matchesStatusField] using he
          simpa [extract_idea_status, findStatus, hne] using ih hrest

/-- Witness for C10: a null-valued `"Idea STATUS"` field shadows a later
`"idea status"` field valued `"Accepted"`. -/
theorem C10_witness :
    extract_idea_status (Bag.entries
      ([.malformed, .field "other" (some "x")] ++
        BagEntry.field "Idea STATUS" none ::
          [BagEntry.field "idea status" (some "Accepted")])) = "" :=
  C10_first_null_match_wins _ _ _ (by decide) (by decide)
